import Mathlib

/-!
# Verification of `packages/fiber/src/web/Canvas.tsx`

A shallow embedding of the `Canvas` component of react-three-fiber's web
entry point.  The component is glue between:

  * a size observer (`useMeasure`) reporting `(width, height)` of the outer
    container,
  * an `IntersectionObserver` toggling a `visible` flag when `intersect` is
    set,
  * an `ErrorBoundary` capturing synchronous child failures into `error`
    state,
  * a `Block` sentinel registering a never-resolving promise into `block`
    state while children are suspended,
  * the render bridge: `render(tree, canvas, options)` re-invoked from a
    layout effect, and `unmountComponentAtNode(canvas)` from a one-shot
    effect cleanup.

We model the component as a transition system: `State` holds the hook
state, `Props` the caller-supplied configuration, `Event` the external
stimuli, and each step emits a list of `Call`s to the render bridge /
observer API together with the outcome of the re-render (committed,
suspended, or threw).

Modelling notes, each tied to a line of the source:

  * `canvasProps = pick(props, CANVAS_PROPS)` allocates a fresh object on
    every render, so the `Object.is` comparison of the layout effect's
    dependency array `[width, height, children, canvasProps, visible]`
    never succeeds: the effect body re-runs on every commit.  `commit`
    below therefore runs the effect body unconditionally.
  * `useMeasure` (react-use-measure) only publishes bounds that differ
    from the last published bounds (`areBoundsEqual` bailout), so a size
    report equal to the current size causes no re-render.
  * `setVisible`/`setBlock`/`setError` are React `useState` setters: a set
    to an `Object.is`-equal value causes no re-render.  Error objects and
    promises are modelled as opaque `Nat` tokens; distinct tokens stand
    for distinct object identities.
  * While the `ErrorBoundary` has caught (`error` set) it renders `null`,
    so the child tree is gone and can neither throw again nor
    suspend: `childThrow`/`blockSet` events are no-ops in that state.
    While suspended (`block` set) the children do not render, so they
    cannot throw: `childThrow` is a no-op in that state.
  * When a re-render throws (`block` or `error` set) the component does
    not commit, so no effect runs: no bridge call is emitted and the
    intersection-observer effect does not re-attach/detach.
-/

namespace Canvas

/-- The frame-loop modes accepted by the render bridge
(`frameloop?: 'always' | 'demand' | 'never'`). -/
inductive Frameloop where
  | always : Frameloop
  | demand : Frameloop
  | never : Frameloop
deriving DecidableEq, Repr

/-- Measured size of the container, as reported by the size observer. -/
structure Size where
  width : Nat
  height : Nat
deriving DecidableEq, Repr

/-- Values of caller-supplied attributes and of the options handed to the
render bridge.  `nat` stands for an opaque attribute value, identified by
a token. -/
inductive Val where
  | nat : Nat → Val
  | size : Size → Val
  | frameloop : Option Frameloop → Val
  | eventsF : Nat → Val
deriving DecidableEq, Repr

/-- A JS object as an association list; later bindings override earlier
ones (spread semantics), so lookup takes the last binding. -/
def getProp : List (String × Val) → String → Option Val
  | [], _ => none
  | (k', v) :: o, k =>
    match getProp o k with
    | some v' => some v'
    | none => if k = k' then some v else none

/-- The fixed allow-list of attributes forwarded to the render bridge
(`CANVAS_PROPS` in the source). -/
def CANVAS_PROPS : List String :=
  ["gl", "events", "size", "shadows", "linear", "flat", "orthographic",
   "frameloop", "dpr", "performance", "clock", "raycaster", "camera",
   "onPointerMissed", "onCreated"]

/-- `pick(props, keys)`: the attributes whose key is in `keys`. -/
def pickProps (props : List (String × Val)) (keys : List String) :
    List (String × Val) :=
  props.filter (fun q => q.1 ∈ keys)

/-- `omit(props, keys)`: the attributes whose key is not in `keys`. -/
def omitProps (props : List (String × Val)) (keys : List String) :
    List (String × Val) :=
  props.filter (fun q => q.1 ∉ keys)

/-- The identity of the built-in pointer-event source factory
(`createPointerEvents` from `./events`). -/
def createPointerEvents : Nat := 0

/-- Caller-supplied configuration: the explicitly destructured options
(`children`, `events`, `intersect`, `frameloop`) plus the remaining
attributes `...props`.  `childrenId` is the reference identity of the
child tree; `events` is the identity of a caller-supplied event-source
factory, if any. -/
structure Props where
  childrenId : Nat
  intersect : Bool
  frameloop : Option Frameloop
  events : Option Nat
  rest : List (String × Val)
deriving DecidableEq, Repr

/-- Hook state of the component.  `observed` records whether the
intersection-observer effect currently has an observer attached (it also
serves as the remembered `[intersect]` dependency of that effect). -/
structure State where
  width : Nat
  height : Nat
  visible : Bool
  block : Option Nat
  error : Option Nat
  observed : Bool
deriving DecidableEq, Repr

/-- `useMeasure` initial bounds are zero; `visible`, `block`, `error`
start as `false`; no observer is attached before the first commit. -/
def initState : State :=
  { width := 0, height := 0, visible := false, block := none,
    error := none, observed := false }

/-- The machine: current props and hook state. -/
structure Machine where
  props : Props
  st : State
deriving DecidableEq, Repr

/-- Calls made by the component to the render bridge and the
intersection-observer API. -/
inductive Call where
  | mount : Nat → List (String × Val) → Call
  | unmount : Call
  | observe : Call
  | disconnect : Call
deriving DecidableEq, Repr

/-- Outcome of one evaluation (render pass) of the component body. -/
inductive RenderOutcome where
  | committed : RenderOutcome
  | suspendedOn : Nat → RenderOutcome
  | threw : Nat → RenderOutcome
deriving DecidableEq, Repr

/-- `shouldRender = !intersect || visible` (line 88). -/
def shouldRender (p : Props) (s : State) : Bool :=
  !p.intersect || s.visible

/-- The options object passed to `render` (lines 95-99):
`{...canvasProps, size: {width, height}, events: events ||
createPointerEvents, frameloop: shouldRender ? frameloop : 'never'}`. -/
def mountOpts (p : Props) (s : State) : List (String × Val) :=
  pickProps p.rest CANVAS_PROPS ++
    [("size", Val.size ⟨s.width, s.height⟩),
     ("events", Val.eventsF (p.events.getD createPointerEvents)),
     ("frameloop",
      Val.frameloop (if shouldRender p s then p.frameloop else some .never))]

/-- The frameloop option the bridge receives in a mount call. -/
def forwardedFrameloop (p : Props) (s : State) : Option Frameloop :=
  if shouldRender p s then p.frameloop else some .never

/-- The attributes applied to the outer container `<div>`
(`divProps = omit(props, CANVAS_PROPS)`, line 73). -/
def divProps (p : Props) : List (String × Val) :=
  omitProps p.rest CANVAS_PROPS

/-- The component body up to its early exits: `if (block) throw block;
if (error) throw error` (lines 81-83); otherwise the render commits. -/
def renderPass (s : State) : RenderOutcome :=
  match s.block with
  | some t => .suspendedOn t
  | none =>
    match s.error with
    | some e => .threw e
    | none => .committed

/-- Effects run at a commit.  The layout effect (lines 86-103) re-runs on
every commit (its `canvasProps` dependency is a fresh object each render)
and calls `render` only when both dimensions are positive.  The
intersection-observer effect (lines 111-119) re-runs only when its
`[intersect]` dependency changed: its cleanup disconnects the previous
observer and the new body attaches one iff `intersect` is set. -/
def commit (p : Props) (s : State) : State × List Call :=
  let mountCalls :=
    if 0 < s.width ∧ 0 < s.height then [Call.mount p.childrenId (mountOpts p s)]
    else []
  if s.observed = p.intersect then (s, mountCalls)
  else
    ({ s with observed := p.intersect },
     mountCalls ++
       (if s.observed then [Call.disconnect] else []) ++
       (if p.intersect then [Call.observe] else []))

/-- A re-render of the component with (already updated) props and state:
if the body throws, nothing commits and no effect runs. -/
def rerender (m : Machine) : Machine × List Call × Option RenderOutcome :=
  match renderPass m.st with
  | .committed =>
    let (s', cs) := commit m.props m.st
    ({ m with st := s' }, cs, some .committed)
  | o => (m, [], some o)

/-- External stimuli. -/
inductive Event where
  /-- the size observer publishes new bounds -/
  | sizeReport : Nat → Nat → Event
  /-- the intersection observer reports the new intersecting state -/
  | intersection : Bool → Event
  /-- the parent re-renders the component with (possibly new) props -/
  | setProps : Props → Event
  /-- a child throws synchronously inside the bridge-rendered tree; the
  `ErrorBoundary` catches it and calls `setError` -/
  | childThrow : Nat → Event
  /-- the `Block` suspense sentinel is displayed: its layout effect calls
  `set(new Promise(() => null))` with a fresh never-resolving token -/
  | blockSet : Nat → Event
  /-- the `Block` sentinel is removed: its cleanup calls `set(false)` -/
  | blockClear : Event
deriving DecidableEq, Repr

/-- One step of the machine: apply the stimulus, re-render if React
would.  Returns the new machine, the emitted calls, and the outcome of
the re-render (`none` when no re-render happened). -/
def step (m : Machine) (ev : Event) : Machine × List Call × Option RenderOutcome :=
  match ev with
  | .sizeReport w h =>
    -- react-use-measure only publishes changed bounds
    if w = m.st.width ∧ h = m.st.height then (m, [], none)
    else rerender { m with st := { m.st with width := w, height := h } }
  | .intersection b =>
    -- callbacks only fire while an observer is attached; `setVisible`
    -- bails out on an identical value
    if m.st.observed = false then (m, [], none)
    else if b = m.st.visible then (m, [], none)
    else rerender { m with st := { m.st with visible := b } }
  | .setProps p =>
    -- a parent re-render always re-renders this component
    rerender { m with props := p }
  | .childThrow e =>
    -- while suspended the children do not render; after a catch the
    -- boundary renders null: in either state nothing can throw
    if m.st.block.isSome ∨ m.st.error.isSome then (m, [], none)
    else rerender { m with st := { m.st with error := some e } }
  | .blockSet t =>
    -- after a catch the boundary renders null, so `Block` is gone
    if m.st.error.isSome then (m, [], none)
    else rerender { m with st := { m.st with block := some t } }
  | .blockClear =>
    -- `set(false)` with `block` already `false` bails out
    if m.st.block.isNone then (m, [], none)
    else rerender { m with st := { m.st with block := none } }

/-- Calls emitted by a single step. -/
def stepCalls (m : Machine) (ev : Event) : List Call :=
  (step m ev).2.1

/-- Outcome of the re-render a single step caused, if any. -/
def stepOutcome (m : Machine) (ev : Event) : Option RenderOutcome :=
  (step m ev).2.2

/-- The machine after a step. -/
def stepMachine (m : Machine) (ev : Event) : Machine :=
  (step m ev).1

/-- The initial mount of the component: the first render always commits
(`block` and `error` start unset), running both effects for the first
time and registering the unmount cleanup. -/
def mountComponent (p : Props) : Machine × List Call :=
  ({ props := p, st := (commit p initState).1 }, (commit p initState).2)

/-- Run a list of events, collecting all emitted calls. -/
def runFrom (m : Machine) : List Event → Machine × List Call
  | [] => (m, [])
  | ev :: evs =>
    ((runFrom (step m ev).1 evs).1,
     (step m ev).2.1 ++ (runFrom (step m ev).1 evs).2)

/-- The outcomes of all re-renders caused by a list of events. -/
def outcomesFrom (m : Machine) : List Event → List RenderOutcome
  | [] => []
  | ev :: evs =>
    ((step m ev).2.2).toList ++ outcomesFrom (step m ev).1 evs

/-- All bridge/observer calls from mounting with props `p` and then
processing `evs`. -/
def runCalls (p : Props) (evs : List Event) : List Call :=
  (mountComponent p).2 ++ (runFrom (mountComponent p).1 evs).2

/-- The machine reached after mounting with `p` and processing `evs`. -/
def runMachine (p : Props) (evs : List Event) : Machine :=
  (runFrom (mountComponent p).1 evs).1

/-- Tearing the component down runs the effect cleanups in declaration
order: the one-shot effect's cleanup calls `unmountComponentAtNode`
(lines 105-108), and the intersection effect's cleanup disconnects the
observer if one is attached. -/
def teardownCalls (m : Machine) : List Call :=
  Call.unmount :: (if m.st.observed then [Call.disconnect] else [])

/-- Every call over the whole lifetime: initial mount, events, teardown. -/
def fullRunCalls (p : Props) (evs : List Event) : List Call :=
  runCalls p evs ++ teardownCalls (runMachine p evs)

/-- Number of mount calls in a call list. -/
def countMounts : List Call → Nat
  | [] => 0
  | .mount _ _ :: cs => countMounts cs + 1
  | _ :: cs => countMounts cs

/-- Number of unmount calls in a call list. -/
def countUnmounts : List Call → Nat
  | [] => 0
  | .unmount :: cs => countUnmounts cs + 1
  | _ :: cs => countUnmounts cs

/-- A size report event for each pair in a list. -/
def sizeEvents (rs : List (Nat × Nat)) : List Event :=
  rs.map (fun r => Event.sizeReport r.1 r.2)

/-- The frameloop option of every mount call in a call list. -/
def mountFrameloops (cs : List Call) : List (Option Val) :=
  cs.filterMap fun c =>
    match c with
    | .mount _ o => some (getProp o "frameloop")
    | _ => none

/-- Events that neither throw nor suspend the children. -/
def benign : Event → Bool
  | .childThrow _ => false
  | .blockSet _ => false
  | _ => true

/-- Sample configuration: gating off, continuous frame loop, no
caller-supplied event factory, no extra attributes. -/
def pSample : Props :=
  { childrenId := 1, intersect := false, frameloop := some .always,
    events := none, rest := [] }

/-- Sample configuration with visibility gating enabled. -/
def pOn : Props :=
  { pSample with intersect := true }

/-- Sample configuration whose caller-configured frame loop is already
the paused mode. -/
def pNeverLoop : Props :=
  { pSample with frameloop := some .never }

/-- Sample configuration with extra attributes: one allow-listed
(`camera`), one caller-supplied `size`, one arbitrary (`id`). -/
def pMixed : Props :=
  { pSample with
    rest := [("camera", Val.nat 5), ("size", Val.nat 99), ("id", Val.nat 6)] }

/-- A state with a committed positive size. -/
def sPos : State :=
  { initState with width := 800, height := 600 }

/-!
## Helper lemmas
-/

theorem getProp_append (a b : List (String × Val)) (k : String) (v : Val)
    (h : getProp b k = some v) : getProp (a ++ b) k = some v := by
  induction a with
  | nil => simpa using h
  | cons x a ih =>
    obtain ⟨k', v'⟩ := x
    simp only [List.cons_append, getProp, List.append_eq, ih]

theorem countMounts_append (a b : List Call) :
    countMounts (a ++ b) = countMounts a + countMounts b := by
  induction a with
  | nil => simp [countMounts]
  | cons c a ih =>
    cases c
    all_goals simp [countMounts, ih]
    all_goals omega

theorem countUnmounts_append (a b : List Call) :
    countUnmounts (a ++ b) = countUnmounts a + countUnmounts b := by
  induction a with
  | nil => simp [countUnmounts]
  | cons c a ih =>
    cases c
    all_goals simp [countUnmounts, ih]
    all_goals omega

theorem commit_st (p : Props) (s : State) :
    (commit p s).1 = { s with observed := p.intersect } := by
  unfold commit
  split
  · split
    · rename_i h
      rw [← h]
    · rfl
  · split
    · rename_i h
      rw [← h]
    · rfl

theorem countMounts_commit (p : Props) (s : State) :
    countMounts (commit p s).2 =
      if 0 < s.width ∧ 0 < s.height then 1 else 0 := by
  unfold commit
  repeat' split
  all_goals simp [countMounts_append, countMounts]

theorem countUnmounts_commit (p : Props) (s : State) :
    countUnmounts (commit p s).2 = 0 := by
  unfold commit
  repeat' split
  all_goals simp [countUnmounts_append, countUnmounts]

theorem rerender_committed (m : Machine) (hb : m.st.block = none)
    (he : m.st.error = none) :
    rerender m =
      ({ m with st := (commit m.props m.st).1 },
       (commit m.props m.st).2, some .committed) := by
  unfold rerender renderPass
  rw [hb, he]

theorem rerender_suspended (m : Machine) (t : Nat)
    (hbt : m.st.block = some t) :
    rerender m = (m, [], some (.suspendedOn t)) := by
  unfold rerender renderPass
  rw [hbt]

theorem rerender_threw (m : Machine) (e : Nat) (hb : m.st.block = none)
    (he : m.st.error = some e) :
    rerender m = (m, [], some (.threw e)) := by
  unfold rerender renderPass
  rw [hb, he]

theorem countUnmounts_rerender (m : Machine) :
    countUnmounts (rerender m).2.1 = 0 := by
  unfold rerender
  split
  · simp [countUnmounts_commit]
  · simp [countUnmounts]

theorem countUnmounts_stepCalls (m : Machine) (ev : Event) :
    countUnmounts (stepCalls m ev) = 0 := by
  unfold stepCalls step
  cases ev <;> repeat' split
  all_goals simp [countUnmounts, countUnmounts_rerender]

theorem countUnmounts_runFrom (evs : List Event) :
    ∀ m : Machine, countUnmounts (runFrom m evs).2 = 0 := by
  induction evs with
  | nil => intro m; simp [runFrom, countUnmounts]
  | cons ev evs ih =>
    intro m
    have h := countUnmounts_stepCalls m ev
    rw [stepCalls] at h
    simp [runFrom, countUnmounts_append, h, ih]

theorem step_sizeReport (p : Props) (s : State) (w h : Nat) :
    step ⟨p, s⟩ (.sizeReport w h) =
      if w = s.width ∧ h = s.height then (⟨p, s⟩, [], none)
      else rerender ⟨p, { s with width := w, height := h }⟩ := rfl

theorem step_intersection (p : Props) (s : State) (b : Bool) :
    step ⟨p, s⟩ (.intersection b) =
      if s.observed = false then (⟨p, s⟩, [], none)
      else if b = s.visible then (⟨p, s⟩, [], none)
      else rerender ⟨p, { s with visible := b }⟩ := rfl

theorem step_setProps (p : Props) (s : State) (p' : Props) :
    step ⟨p, s⟩ (.setProps p') = rerender ⟨p', s⟩ := rfl

theorem step_childThrow (p : Props) (s : State) (e : Nat) :
    step ⟨p, s⟩ (.childThrow e) =
      if s.block.isSome ∨ s.error.isSome then (⟨p, s⟩, [], none)
      else rerender ⟨p, { s with error := some e }⟩ := rfl

theorem step_blockSet (p : Props) (s : State) (t : Nat) :
    step ⟨p, s⟩ (.blockSet t) =
      if s.error.isSome then (⟨p, s⟩, [], none)
      else rerender ⟨p, { s with block := some t }⟩ := rfl

theorem step_blockClear (p : Props) (s : State) :
    step ⟨p, s⟩ Event.blockClear =
      if s.block.isNone then (⟨p, s⟩, [], none)
      else rerender ⟨p, { s with block := none }⟩ := rfl

theorem step_errored (m : Machine) (e : Nat)
    (he : m.st.error = some e) (hb : m.st.block = none) (ev : Event) :
    (step m ev).1.st.error = some e ∧
    (step m ev).1.st.block = none ∧
    (step m ev).2.1 = [] ∧
    ((step m ev).2.2 = none ∨
      (step m ev).2.2 = some (RenderOutcome.threw e)) := by
  obtain ⟨p, s⟩ := m
  simp only [] at he hb
  cases ev with
  | sizeReport w h =>
    rw [step_sizeReport]
    split
    · simp [he, hb]
    · rw [rerender_threw ⟨p, { s with width := w, height := h }⟩ e hb he]
      simp [he, hb]
  | intersection b =>
    rw [step_intersection]
    split
    · simp [he, hb]
    · split
      · simp [he, hb]
      · rw [rerender_threw ⟨p, { s with visible := b }⟩ e hb he]
        simp [he, hb]
  | setProps q =>
    rw [step_setProps, rerender_threw ⟨q, s⟩ e hb he]
    simp [he, hb]
  | childThrow f =>
    rw [step_childThrow, if_pos]
    · simp [he, hb]
    · simp [he]
  | blockSet t =>
    rw [step_blockSet, if_pos]
    · simp [he, hb]
    · simp [he]
  | blockClear =>
    rw [step_blockClear, if_pos]
    · simp [he, hb]
    · simp [hb]

theorem runFrom_errored (e : Nat) (evs : List Event) :
    ∀ m : Machine, m.st.error = some e → m.st.block = none →
      (runFrom m evs).2 = [] ∧
      (runFrom m evs).1.st.error = some e ∧
      (runFrom m evs).1.st.block = none ∧
      ∀ o ∈ outcomesFrom m evs, o = RenderOutcome.threw e := by
  induction evs with
  | nil =>
    intro m he hb
    simp [runFrom, outcomesFrom, he, hb]
  | cons ev evs ih =>
    intro m he hb
    obtain ⟨he', hb', hcalls, houtcome⟩ := step_errored m e he hb ev
    obtain ⟨ih1, ih2, ih3, ih4⟩ := ih (step m ev).1 he' hb'
    refine ⟨?_, ih2, ih3, ?_⟩
    · simp [runFrom, hcalls, ih1]
    · intro o ho
      simp only [outcomesFrom, List.mem_append] at ho
      rcases ho with ho | ho
      · rcases houtcome with h | h <;> rw [h] at ho <;> simp at ho
        exact ho ▸ rfl
      · exact ih4 o ho

theorem rerender_st (m : Machine) :
    (rerender m).1.st.width = m.st.width ∧
    (rerender m).1.st.height = m.st.height ∧
    (rerender m).1.st.visible = m.st.visible ∧
    (rerender m).1.st.block = m.st.block ∧
    (rerender m).1.st.error = m.st.error := by
  unfold rerender
  split
  · simp [commit_st]
  · simp

theorem step_benign (m : Machine) (ev : Event)
    (hb : m.st.block = none) (he : m.st.error = none)
    (hobs : m.st.observed = m.props.intersect) (hev : benign ev = true) :
    (step m ev).1.st.block = none ∧ (step m ev).1.st.error = none ∧
    (step m ev).1.st.observed = (step m ev).1.props.intersect := by
  obtain ⟨p, s⟩ := m
  simp only [] at hb he hobs
  cases ev with
  | sizeReport w h =>
    rw [step_sizeReport]
    split
    · exact ⟨hb, he, hobs⟩
    · rw [rerender_committed ⟨p, { s with width := w, height := h }⟩ hb he]
      simp [commit_st, hb, he]
  | intersection b =>
    rw [step_intersection]
    split
    · exact ⟨hb, he, hobs⟩
    · split
      · exact ⟨hb, he, hobs⟩
      · rw [rerender_committed ⟨p, { s with visible := b }⟩ hb he]
        simp [commit_st, hb, he]
  | setProps q =>
    rw [step_setProps, rerender_committed ⟨q, s⟩ hb he]
    simp [commit_st, hb, he]
  | childThrow f => simp [benign] at hev
  | blockSet t => simp [benign] at hev
  | blockClear =>
    rw [step_blockClear, if_pos (by simp [hb])]
    exact ⟨hb, he, hobs⟩

theorem runFrom_benign (evs : List Event) :
    ∀ m : Machine, evs.all benign = true →
      m.st.block = none → m.st.error = none →
      m.st.observed = m.props.intersect →
      (runFrom m evs).1.st.block = none ∧
      (runFrom m evs).1.st.error = none ∧
      (runFrom m evs).1.st.observed = (runFrom m evs).1.props.intersect := by
  induction evs with
  | nil =>
    intro m _ hb he hobs
    exact ⟨hb, he, hobs⟩
  | cons ev evs ih =>
    intro m hall hb he hobs
    rw [List.all_cons, Bool.and_eq_true] at hall
    obtain ⟨hb', he', hobs'⟩ := step_benign m ev hb he hobs hall.1
    exact ih (step m ev).1 hall.2 hb' he' hobs'

/-!
## Claims
-/

/-- Claim C1, counterexample: in the report sequence (800, 600), (0, 0)
the bridge's mount was invoked (once, at the first report) although the
most recently reported size has width 0 and height 0 — so "mount is
invoked iff the most recently reported size is strictly positive" fails
as stated. -/
theorem c1_counterexample :
    ¬(0 < countMounts (runCalls pSample (sizeEvents [(800, 600), (0, 0)])) ↔
        0 < (([(800, 600), (0, 0)] : List (Nat × Nat)).getLastD (0, 0)).1 ∧
        0 < (([(800, 600), (0, 0)] : List (Nat × Nat)).getLastD (0, 0)).2) := by
  decide

/-- Claim C1 as amended: a size report triggers a mount call exactly when
it differs from the current size and has strictly positive width and
height (given the component is neither suspended nor errored); in
particular a report with width 0 or height 0 never triggers a mount. -/
theorem c1_amended (p : Props) (s : State) (hb : s.block = none)
    (he : s.error = none) (w h : Nat) :
    0 < countMounts (step ⟨p, s⟩ (.sizeReport w h)).2.1 ↔
      ¬(w = s.width ∧ h = s.height) ∧ 0 < w ∧ 0 < h := by
  rw [step_sizeReport]
  split
  · rename_i hc
    simp [countMounts, hc]
  · rename_i hc
    rw [rerender_committed ⟨p, { s with width := w, height := h }⟩ hb he,
      countMounts_commit]
    simp only [hc, not_false_iff, true_and]
    split
    all_goals simp_all

/-- Witness for `c1_amended` at a concrete input. -/
theorem c1_amended_witness :
    0 < countMounts (step ⟨pSample, initState⟩ (.sizeReport 800 600)).2.1 ↔
      ¬(800 = initState.width ∧ 600 = initState.height) ∧
        0 < 800 ∧ 0 < 600 :=
  c1_amended pSample initState rfl rfl 800 600

/-- Claim C2, counterexample: from a mounted machine at size (800, 600),
a parent re-render with the identical props leaves the machine — hence
the size, the visibility flag and the child tree reference — unchanged,
yet re-fires mount: the `canvasProps` dependency is a fresh object each
render, so re-firing is not restricted to size/visibility/children
changes. -/
theorem c2_counterexample :
    countMounts (step (runMachine pSample [Event.sizeReport 800 600])
        (Event.setProps pSample)).2.1 = 1 ∧
    (step (runMachine pSample [Event.sizeReport 800 600])
        (Event.setProps pSample)).1 =
      runMachine pSample [Event.sizeReport 800 600] := by
  decide

/-- Claim C2 as amended: mount is re-fired on every committed re-render
while both dimensions are positive (any prop update re-fires it, since
`canvasProps` is freshly allocated each render); identical size reports
and identical intersection states cause no re-render at all, so the
scenario holds: for reports (0,0), (800,600), (800,600), (0,0) with
children and visibility fixed, mount is called exactly once and no
unmount occurs. -/
theorem c2_amended :
    (countMounts (runCalls pSample
        (sizeEvents [(0, 0), (800, 600), (800, 600), (0, 0)])) = 1 ∧
     countUnmounts (runCalls pSample
        (sizeEvents [(0, 0), (800, 600), (800, 600), (0, 0)])) = 0) ∧
    (∀ (p : Props) (s : State) (p' : Props),
      s.block = none → s.error = none →
      (0 < countMounts (step ⟨p, s⟩ (.setProps p')).2.1 ↔
        0 < s.width ∧ 0 < s.height)) ∧
    (∀ (p : Props) (s : State) (w h : Nat), w = s.width → h = s.height →
      (step ⟨p, s⟩ (.sizeReport w h)).2.1 = []) ∧
    (∀ (p : Props) (s : State) (b : Bool), b = s.visible →
      (step ⟨p, s⟩ (.intersection b)).2.1 = []) := by
  refine ⟨by decide, ?_, ?_, ?_⟩
  · intro p s p' hb he
    rw [step_setProps, rerender_committed ⟨p', s⟩ hb he, countMounts_commit]
    split
    all_goals simp_all
  · intro p s w h hw hh
    rw [step_sizeReport, if_pos ⟨hw, hh⟩]
  · intro p s b hb
    rw [step_intersection]
    repeat' split
    all_goals simp_all

/-- Witness for `c2_amended` at a concrete input. -/
theorem c2_amended_witness :
    0 < countMounts (step ⟨pSample, sPos⟩ (Event.setProps pOn)).2.1 ↔
      0 < sPos.width ∧ 0 < sPos.height :=
  c2_amended.2.1 pSample sPos pOn rfl rfl

/-- Claim C3, counterexample: when the caller-configured frameloop mode
is itself the literal 'never', the option passed to the bridge equals
'never' although `shouldRender` is true — so "equals 'never' exactly when
`shouldRender` is false" fails as stated. -/
theorem c3_counterexample :
    shouldRender pNeverLoop sPos = true ∧
    getProp (mountOpts pNeverLoop sPos) "frameloop" =
      some (Val.frameloop (some Frameloop.never)) :=
  ⟨rfl, rfl⟩

/-- Claim C3 as amended: the frameloop option passed to the bridge is
'never' when `shouldRender` is false and the caller-configured mode
otherwise; hence it equals 'never' exactly when `shouldRender` is false
or the configured mode is itself 'never'.  With `intersect` enabled, an
off-viewport state forwards 'never' and an on-viewport state restores
the configured mode. -/
theorem c3_amended (p : Props) (s : State) :
    getProp (mountOpts p s) "frameloop" =
      some (Val.frameloop (forwardedFrameloop p s)) ∧
    (forwardedFrameloop p s = some Frameloop.never ↔
      shouldRender p s = false ∨ p.frameloop = some Frameloop.never) ∧
    (shouldRender p s = true → forwardedFrameloop p s = p.frameloop) ∧
    (p.intersect = true → s.visible = false →
      forwardedFrameloop p s = some Frameloop.never) ∧
    (p.intersect = true → s.visible = true →
      forwardedFrameloop p s = p.frameloop) := by
  refine ⟨getProp_append _ _ _ _ rfl, ?_, ?_, ?_, ?_⟩
  · unfold forwardedFrameloop
    split
    all_goals rename_i hsr
    all_goals simp_all
  · intro hsr
    unfold forwardedFrameloop
    rw [if_pos hsr]
  · intro hi hv
    simp [forwardedFrameloop, shouldRender, hi, hv]
  · intro hi hv
    simp [forwardedFrameloop, shouldRender, hi, hv]

/-- Witness for `c3_amended` at a concrete input. -/
theorem c3_amended_witness :
    forwardedFrameloop pOn { sPos with visible := false } =
      some Frameloop.never :=
  (c3_amended pOn { sPos with visible := false }).2.2.2.1 rfl rfl

/-- Claim C4, counterexample: the visibility flag initializes to `false`
(not a true-equivalent), and with the machine mounted at (800, 600) under
`intersect = false` and configured mode 'always', the very re-render
caused by toggling `intersect` to true — before any visibility-observer
callback — already re-fires mount forwarding 'never' instead of the
configured mode: rendering behaviour changes before the observer's first
callback. -/
theorem c4_counterexample :
    pSample.intersect = false ∧ pOn.intersect = true ∧
    pOn.frameloop = some Frameloop.always ∧
    initState.visible = false ∧
    mountFrameloops (step (runMachine pSample [Event.sizeReport 800 600])
        (Event.setProps pOn)).2.1 =
      [some (Val.frameloop (some Frameloop.never))] := by
  decide

/-- Claim C4 as amended: while `intersect` is false the component always
renders ungated (`shouldRender` is true and the configured mode is
forwarded), but the visibility flag initializes to `false`, so as soon as
`intersect` is toggled to true every mount fired before the observer's
first callback forwards the paused mode 'never'. -/
theorem c4_amended :
    initState.visible = false ∧
    (∀ (p : Props) (s : State), p.intersect = false →
      shouldRender p s = true ∧ forwardedFrameloop p s = p.frameloop) ∧
    (∀ (p' : Props) (s : State), p'.intersect = true → s.visible = false →
      forwardedFrameloop p' s = some Frameloop.never) := by
  refine ⟨rfl, ?_, ?_⟩
  · intro p s hi
    constructor
    · simp [shouldRender, hi]
    · simp [forwardedFrameloop, shouldRender, hi]
  · intro p' s hi hv
    simp [forwardedFrameloop, shouldRender, hi, hv]

/-- Witness for `c4_amended` at a concrete input. -/
theorem c4_amended_witness :
    shouldRender pSample sPos = true ∧
    forwardedFrameloop pSample sPos = pSample.frameloop :=
  c4_amended.2.1 pSample sPos rfl

/-- Claim C5: a synchronous child failure `e` is stored and immediately
re-thrown; from then on the component re-throws exactly that failure
object on every subsequent evaluation (the error state is never
cleared), and no further bridge mount calls occur until an ancestor
remounts the component. -/
theorem c5_error_sticky :
    (∀ (p : Props) (s : State) (e : Nat), s.error = none → s.block = none →
      (step ⟨p, s⟩ (.childThrow e)).2.2 = some (RenderOutcome.threw e) ∧
      (step ⟨p, s⟩ (.childThrow e)).1.st.error = some e) ∧
    ∀ (m : Machine) (e : Nat), m.st.error = some e → m.st.block = none →
      ∀ evs : List Event,
        countMounts (runFrom m evs).2 = 0 ∧
        (runFrom m evs).1.st.error = some e ∧
        ∀ o ∈ outcomesFrom m evs, o = RenderOutcome.threw e := by
  constructor
  · intro p s e he hb
    rw [step_childThrow, if_neg (by simp [he, hb]),
      rerender_threw ⟨p, { s with error := some e }⟩ e hb rfl]
    exact ⟨rfl, rfl⟩
  · intro m e he hb evs
    obtain ⟨h1, h2, _, h4⟩ := runFrom_errored e evs m he hb
    refine ⟨?_, h2, h4⟩
    rw [h1]
    rfl

/-- Witness for `c5_error_sticky` at a concrete input. -/
theorem c5_error_sticky_witness :
    countMounts (runFrom ⟨pSample, { sPos with error := some 7 }⟩
        [Event.sizeReport 640 480, Event.setProps pOn]).2 = 0 ∧
    (runFrom ⟨pSample, { sPos with error := some 7 }⟩
        [Event.sizeReport 640 480, Event.setProps pOn]).1.st.error = some 7 :=
  ⟨(c5_error_sticky.2 ⟨pSample, { sPos with error := some 7 }⟩ 7 rfl rfl
      [Event.sizeReport 640 480, Event.setProps pOn]).1,
   (c5_error_sticky.2 ⟨pSample, { sPos with error := some 7 }⟩ 7 rfl rfl
      [Event.sizeReport 640 480, Event.setProps pOn]).2.1⟩

/-- Claim C6: tearing the component down produces exactly one
`unmountComponentAtNode` call over the whole lifetime, whatever the
history of size reports, visibility changes, prop updates, child errors
and suspensions — even if no mount call ever happened, and even if the
component is suspended at teardown. -/
theorem c6_unmount_exactly_once (p : Props) (evs : List Event) :
    countUnmounts (fullRunCalls p evs) = 1 := by
  unfold fullRunCalls runCalls mountComponent teardownCalls
  rw [countUnmounts_append, countUnmounts_append, countUnmounts_commit,
    countUnmounts_runFrom]
  split
  all_goals simp [countUnmounts]

/-- Claim C7: displaying the suspension sentinel registers its pending
token in the block state and removing it clears the block state; whenever
the block state holds a token the component re-raises exactly that token
before producing any output (no bridge call is emitted). -/
theorem c7_suspension_relay (p : Props) (s : State) (t : Nat) :
    (s.error = none → (step ⟨p, s⟩ (.blockSet t)).1.st.block = some t) ∧
    ((step ⟨p, s⟩ Event.blockClear).1.st.block = none) ∧
    (s.block = some t →
      renderPass s = RenderOutcome.suspendedOn t ∧
      rerender ⟨p, s⟩ = (⟨p, s⟩, [], some (RenderOutcome.suspendedOn t))) := by
  refine ⟨?_, ?_, ?_⟩
  · intro he
    rw [step_blockSet, if_neg (by simp [he]),
      rerender_suspended ⟨p, { s with block := some t }⟩ t rfl]
  · rw [step_blockClear]
    split
    · rename_i h
      simpa using h
    · rw [(rerender_st ⟨p, { s with block := none }⟩).2.2.2.1]
  · intro hbt
    have hr : renderPass s = RenderOutcome.suspendedOn t := by
      unfold renderPass
      rw [hbt]
    exact ⟨hr, rerender_suspended ⟨p, s⟩ t hbt⟩

/-- Witness for `c7_suspension_relay` at a concrete input. -/
theorem c7_suspension_relay_witness :
    renderPass { initState with block := some 5 } =
      RenderOutcome.suspendedOn 5 ∧
    rerender ⟨pSample, { initState with block := some 5 }⟩ =
      (⟨pSample, { initState with block := some 5 }⟩, [],
       some (RenderOutcome.suspendedOn 5)) :=
  (c7_suspension_relay pSample { initState with block := some 5 } 5).2.2 rfl

/-- Claim C8: every remaining caller-supplied attribute is routed to
exactly one destination — into the options forwarded to the bridge's
mount call when its key is in the `CANVAS_PROPS` allow-list, and onto the
outer container element otherwise; the two groups are disjoint and
together cover all the attributes. -/
theorem c8_prop_partition (p : Props) (s : State) (a : String × Val)
    (ha : a ∈ p.rest) :
    (a ∈ pickProps p.rest CANVAS_PROPS ↔ a.1 ∈ CANVAS_PROPS) ∧
    (a ∈ divProps p ↔ a.1 ∉ CANVAS_PROPS) ∧
    (a ∈ pickProps p.rest CANVAS_PROPS ∨ a ∈ divProps p) ∧
    ¬(a ∈ pickProps p.rest CANVAS_PROPS ∧ a ∈ divProps p) ∧
    (a.1 ∈ CANVAS_PROPS → a ∈ mountOpts p s) := by
  have hp : a ∈ pickProps p.rest CANVAS_PROPS ↔ a.1 ∈ CANVAS_PROPS := by
    simp [pickProps, List.mem_filter, ha]
  have hd : a ∈ divProps p ↔ a.1 ∉ CANVAS_PROPS := by
    simp [divProps, omitProps, List.mem_filter, ha]
  refine ⟨hp, hd, ?_, ?_, ?_⟩
  · by_cases h : a.1 ∈ CANVAS_PROPS
    · exact Or.inl (hp.mpr h)
    · exact Or.inr (hd.mpr h)
  · rintro ⟨h1, h2⟩
    exact (hd.mp h2) (hp.mp h1)
  · intro h
    unfold mountOpts
    exact List.mem_append_left _ (hp.mpr h)

/-- Witness for `c8_prop_partition` at a concrete input. -/
theorem c8_prop_partition_witness :
    ("camera", Val.nat 5) ∈ mountOpts pMixed sPos :=
  (c8_prop_partition pMixed sPos ("camera", Val.nat 5)
      (by decide)).2.2.2.2 (by decide)

/-- Claim C9: the visibility observer is attached exactly when
`intersect` is enabled (over any benign run); while attached an
intersection callback sets the visibility flag to the reported state, and
when detached callbacks do nothing; the observation is disconnected at
teardown and when `intersect` toggles off; and with `intersect` off
rendering is never gated by visibility. -/
theorem c9_visibility_observer :
    (∀ (p : Props) (evs : List Event), evs.all benign = true →
      (runMachine p evs).st.observed = (runMachine p evs).props.intersect) ∧
    (∀ (p : Props) (s : State) (b : Bool), s.observed = true →
      s.block = none → s.error = none →
      (step ⟨p, s⟩ (.intersection b)).1.st.visible = b) ∧
    (∀ (p : Props) (s : State) (b : Bool), s.observed = false →
      step ⟨p, s⟩ (.intersection b) = (⟨p, s⟩, [], none)) ∧
    (∀ m : Machine, m.st.observed = true →
      Call.disconnect ∈ teardownCalls m) ∧
    (∀ (p p' : Props) (s : State), s.observed = true → s.block = none →
      s.error = none → p'.intersect = false →
      Call.disconnect ∈ (step ⟨p, s⟩ (.setProps p')).2.1 ∧
      (step ⟨p, s⟩ (.setProps p')).1.st.observed = false) ∧
    (∀ (p : Props) (s : State), p.intersect = false →
      shouldRender p s = true) := by
  refine ⟨?_, ?_, ?_, ?_, ?_, ?_⟩
  · intro p evs hall
    exact (runFrom_benign evs (mountComponent p).1 hall
      (by simp [mountComponent, commit_st, initState])
      (by simp [mountComponent, commit_st, initState])
      (by simp [mountComponent, commit_st])).2.2
  · intro p s b ho hb he
    rw [step_intersection, if_neg (by simp [ho])]
    split
    · rename_i hv
      exact hv.symm
    · rw [rerender_committed ⟨p, { s with visible := b }⟩ hb he]
      simp [commit_st]
  · intro p s b ho
    rw [step_intersection, if_pos ho]
  · intro m ho
    unfold teardownCalls
    rw [if_pos ho]
    simp
  · intro p p' s ho hb he hi
    rw [step_setProps, rerender_committed ⟨p', s⟩ hb he]
    constructor
    · unfold commit
      rw [if_neg (by simp [ho, hi])]
      simp [ho]
    · simp [commit_st, hi]
  · intro p s hi
    simp [shouldRender, hi]

/-- Witness for `c9_visibility_observer` at a concrete input. -/
theorem c9_visibility_observer_witness :
    (runMachine pOn
        [Event.sizeReport 800 600, Event.intersection true]).st.observed =
      (runMachine pOn
        [Event.sizeReport 800 600, Event.intersection true]).props.intersect :=
  c9_visibility_observer.1 pOn
    [Event.sizeReport 800 600, Event.intersection true] (by decide)

/-- Claim C10: the size option in the mount call always equals the
measured (width, height) — a caller-supplied `size` attribute, although
in the allow-list, is overridden by the spread order — and when the
caller supplies no events factory the built-in pointer-events factory is
passed, while a supplied factory is forwarded as-is. -/
theorem c10_size_overridden (p : Props) (s : State) :
    getProp (mountOpts p s) "size" = some (Val.size ⟨s.width, s.height⟩) ∧
    "size" ∈ CANVAS_PROPS ∧
    (p.events = none →
      getProp (mountOpts p s) "events" =
        some (Val.eventsF createPointerEvents)) ∧
    ∀ f : Nat, p.events = some f →
      getProp (mountOpts p s) "events" = some (Val.eventsF f) := by
  refine ⟨getProp_append _ _ _ _ rfl, by decide, ?_, ?_⟩
  · intro h
    refine getProp_append _ _ _ _ ?_
    rw [h]
    rfl
  · intro f h
    refine getProp_append _ _ _ _ ?_
    rw [h]
    rfl

/-- Witness for `c10_size_overridden` at a concrete input whose extra
attributes include a caller-supplied `size`. -/
theorem c10_size_overridden_witness :
    getProp (mountOpts pMixed sPos) "size" = some (Val.size ⟨800, 600⟩) ∧
    getProp (mountOpts pMixed sPos) "events" =
      some (Val.eventsF createPointerEvents) :=
  ⟨(c10_size_overridden pMixed sPos).1,
   (c10_size_overridden pMixed sPos).2.2.1 rfl⟩

end Canvas
